import Mathlib

/-
Shallow embedding of src/turno_backend/main.py (calendario-turnos-backend):
the shift resolver (HORARIOS_POR_TURNO, get_tipo_dia, the lookup on lines
171-172), the Excel schedule loader cargar_turnos_desde_excel_full, and the
GET /turnos endpoint get_all_turnos.

Conventions of the embedding:
- Python datetime.date is a Date structure of proleptic-Gregorian fields;
  date.weekday() (Monday = 0) is computed through date.toordinal().
- The value of a FECHA cell is a FechaCell: a native pandas
  Timestamp/datetime (carrying a time-of-day that .date() discards), a
  string, a plain number, or NaN (missing).
- Exceptions are values: the per-row try/except that skips a row maps to
  Except String Date (the error string is the printed diagnostic), the
  load-level HTTPException / uncaught KeyError map to LoadErr.
- datetime.now() is modelled as an explicit `today` parameter.
-/

namespace TurnoBackend

/-! ## Calendar dates (model of Python datetime.date) -/

/-- Model of a Python datetime.date value (proleptic Gregorian calendar). -/
structure Date where
  year : Nat
  month : Nat
  day : Nat
deriving DecidableEq

def isLeap (y : Nat) : Bool :=
  y % 4 == 0 && (y % 100 != 0 || y % 400 == 0)

def daysInMonth (y : Nat) : Nat → Nat
  | 1 => 31
  | 2 => if isLeap y then 29 else 28
  | 3 => 31
  | 4 => 30
  | 5 => 31
  | 6 => 30
  | 7 => 31
  | 8 => 31
  | 9 => 30
  | 10 => 31
  | 11 => 30
  | 12 => 31
  | _ => 0

/-- Days in year y strictly before month m (cumulative month lengths). -/
def daysBeforeMonth (y : Nat) (m : Nat) : Nat :=
  (match m with
   | 1 => 0 | 2 => 31 | 3 => 59 | 4 => 90 | 5 => 120 | 6 => 151
   | 7 => 181 | 8 => 212 | 9 => 243 | 10 => 273 | 11 => 304 | _ => 334)
  + (if 3 ≤ m ∧ isLeap y then 1 else 0)

/-- Model of date.toordinal(): day 1 is 0001-01-01. -/
def toordinal (d : Date) : Nat :=
  let n := d.year - 1
  365 * n + n / 4 - n / 100 + n / 400 + daysBeforeMonth d.year d.month + d.day

/-- Model of date.weekday(): Monday = 0 .. Sunday = 6
(0001-01-01, ordinal 1, is a Monday). -/
def weekday (d : Date) : Nat :=
  (toordinal d + 6) % 7

/-- Model of the datetime.date(year, month, day) constructor: some date on
success, none for the ValueError raised on out-of-range fields
(MINYEAR = 1, MAXYEAR = 9999). -/
def mkDate (y m d : Int) : Option Date :=
  if 1 ≤ y ∧ y ≤ 9999 ∧ 1 ≤ m ∧ m ≤ 12 ∧ 1 ≤ d ∧ d ≤ (daysInMonth y.toNat m.toNat : Int) then
    some ⟨y.toNat, m.toNat, d.toNat⟩
  else
    none

/-! ## Static shift table and the resolver (main.py lines 11-39, 80-86, 171-172) -/

/-- main.py lines 11-39: the nested literal dict, as an association list. -/
def HORARIOS_POR_TURNO : List (String × List (String × String)) :=
  [("Lunes a Viernes",
    [("T1A", "05:45 - 13:45"),
     ("T1B", "07:00 - 15:00"),
     ("T2A", "13:45 - 21:45"),
     ("T2B", "15:30 - 23:30"),
     ("R", "Descanso"),
     ("HN", "Horas Nocturnas"),
     ("", "Día Libre / No Definido")]),
   ("Sábado",
    [("T1A", "06:15 - 14:15"),
     ("T1B", "07:00 - 15:00"),
     ("T2A", "15:30 - 23:30"),
     ("T2B", "15:00 - 23:00"),
     ("R", "Descanso"),
     ("HN", "Horas Nocturnas"),
     ("", "Día Libre / No Definido")]),
   ("Domingos y Festivos",
    [("T1A", "07:30 - 15:30"),
     ("HN", "09:00 - 17:00"),
     ("T2A", "15:30 - 23:30"),
     ("R", "Descanso"),
     ("T1B", "No aplica"),
     ("T2B", "No aplica"),
     ("", "Día Libre / No Definido")])]

/-- main.py lines 80-86: weekday index 5 is Saturday, 6 is Sunday, the rest
are Monday-to-Friday. -/
def get_tipo_dia (fecha : Date) : String :=
  if weekday fecha = 5 then "Sábado"
  else if weekday fecha = 6 then "Domingos y Festivos"
  else "Lunes a Viernes"

/-- main.py lines 171-172:
HORARIOS_POR_TURNO.get(tipo_dia, \x7b\x7d).get(tipo_turno, "Horario no disponible"). -/
def horarioFor (fechaObj : Date) (tipoTurno : String) : String :=
  ((HORARIOS_POR_TURNO.lookup (get_tipo_dia fechaObj)).getD []).lookup tipoTurno
    |>.getD "Horario no disponible"

/-- main.py line 56: the static roster of tracked persons. -/
def NOMBRES_PERSONAS : List String :=
  ["J. VIDAL", "M. PAEZ", "L.DOMINGUEZ", "J.VASQUEZ", "J.CANALES",
   "L. FERNANDEZ", "N. SANTANDER", "P. PEÑA", "L. MOLINA", "N. CARREÑO"]

/-! ## Spec-side day categories (used only to compare the resolver against
the spec's wording for the refinement part of claim C1) -/

/-- Spec data model: one of three variants determined from the weekday. -/
inductive DayCategory where
  | Weekday
  | Saturday
  | SundayOrHoliday
deriving DecidableEq

/-- Spec wording: index 5 is Saturday, index 6 is SundayOrHoliday, else
Weekday. -/
def specDayCategory (d : Date) : DayCategory :=
  if weekday d = 5 then .Saturday
  else if weekday d = 6 then .SundayOrHoliday
  else .Weekday

/-- The table key string naming each day category. -/
def categoryKey : DayCategory → String
  | .Saturday => "Sábado"
  | .SundayOrHoliday => "Domingos y Festivos"
  | .Weekday => "Lunes a Viernes"

/-- Spec wording: the static-table entry keyed by (day-category, code),
with the "unavailable" sentinel for missing pairs. -/
def specResolve (cat : DayCategory) (code : String) : String :=
  ((HORARIOS_POR_TURNO.lookup (categoryKey cat)).getD []).lookup code
    |>.getD "Horario no disponible"

lemma get_tipo_dia_eq_categoryKey (d : Date) :
    get_tipo_dia d = categoryKey (specDayCategory d) := by
  unfold get_tipo_dia specDayCategory
  by_cases h5 : weekday d = 5
  · simp [h5, categoryKey]
  · by_cases h6 : weekday d = 6 <;> simp [h5, h6, categoryKey]

lemma get_tipo_dia_cases (d : Date) :
    get_tipo_dia d = "Sábado" ∨ get_tipo_dia d = "Domingos y Festivos" ∨
      get_tipo_dia d = "Lunes a Viernes" := by
  unfold get_tipo_dia
  by_cases h5 : weekday d = 5
  · simp [h5]
  · by_cases h6 : weekday d = 6 <;> simp [h5, h6]

/-- C1: for every calendar date and shift code the resolver returns the
static-table entry keyed by (day category of the date, code), where the day
category is Saturday at weekday index 5, Sunday-or-holiday at index 6 and
Weekday otherwise; concretely it gives "06:15 - 14:15" for Saturday
2024-01-06 with "T1A", "07:30 - 15:30" for Sunday 2024-01-07 with "T1A",
the sentinel for Monday 2024-01-08 with "ZZZ", and the day-off string for
the empty code on that Monday. -/
theorem resolver_static_table :
    (∀ (d : Date) (c : String), horarioFor d c = specResolve (specDayCategory d) c)
    ∧ horarioFor ⟨2024, 1, 6⟩ "T1A" = "06:15 - 14:15"
    ∧ horarioFor ⟨2024, 1, 7⟩ "T1A" = "07:30 - 15:30"
    ∧ horarioFor ⟨2024, 1, 8⟩ "ZZZ" = "Horario no disponible"
    ∧ horarioFor ⟨2024, 1, 8⟩ "" = "Día Libre / No Definido" := by
  refine ⟨?_, by decide, by decide, by decide, by decide⟩
  intro d c
  unfold horarioFor specResolve
  rw [get_tipo_dia_eq_categoryKey]

/-- C9: shift resolution is total: for every date and code the day-category
string is a key of the static table (so the empty-dict fallback of the
lookup is unreachable), and the resolver returns the inner-table entry for
the code, defaulting to the sentinel "Horario no disponible". -/
theorem resolver_total_with_sentinel :
    ∀ (d : Date) (c : String), ∃ m,
      HORARIOS_POR_TURNO.lookup (get_tipo_dia d) = some m ∧
      horarioFor d c = (m.lookup c).getD "Horario no disponible" := by
  intro d c
  unfold horarioFor
  rcases get_tipo_dia_cases d with h | h | h <;> rw [h] <;> exact ⟨_, rfl, rfl⟩

/-! ## Python string helpers needed by the loader -/

/-- Model of str.strip() with no argument: drop leading and trailing
whitespace. -/
def pyStrip (s : String) : String :=
  String.mk (((s.toList.dropWhile Char.isWhitespace).reverse.dropWhile
    Char.isWhitespace).reverse)

/-- Value of a decimal digit character, none otherwise. -/
def digitVal (c : Char) : Option Nat :=
  if 48 ≤ c.toNat ∧ c.toNat ≤ 57 then some (c.toNat - 48) else none

def digitsValAux : List Char → Nat → Option Nat
  | [], acc => some acc
  | c :: rest, acc =>
    match digitVal c with
    | some v => digitsValAux rest (acc * 10 + v)
    | none => none

/-- Value of a nonempty all-digit character list. -/
def digitsVal : List Char → Option Nat
  | [] => none
  | l => digitsValAux l 0

/-- Model of Python int(s) on a string: optional sign, then decimal digits,
surrounding whitespace allowed; none is the ValueError. (Digit-group
underscores and non-ASCII digits, which int() also accepts, do not occur in
this program's inputs and are not modelled.) -/
def pyInt (s : String) : Option Int :=
  match (pyStrip s).toList with
  | '+' :: rest => (digitsVal rest).map Int.ofNat
  | '-' :: rest => (digitsVal rest).map (fun n => -(n : Int))
  | l => (digitsVal l).map Int.ofNat

def splitSlashAux : List Char → List Char → List String
  | [], cur => [String.mk cur.reverse]
  | c :: rest, cur =>
    if c = '/' then String.mk cur.reverse :: splitSlashAux rest []
    else splitSlashAux rest (c :: cur)

/-- Model of str.split('/'). -/
def splitSlash (s : String) : List String :=
  splitSlashAux s.toList []

def digitChar : Nat → Char
  | 0 => '0' | 1 => '1' | 2 => '2' | 3 => '3' | 4 => '4'
  | 5 => '5' | 6 => '6' | 7 => '7' | 8 => '8' | _ => '9'

def natToStringAux : Nat → Nat → List Char → List Char
  | 0, _, acc => acc
  | fuel + 1, n, acc =>
    if n < 10 then digitChar n :: acc
    else natToStringAux fuel (n / 10) (digitChar (n % 10) :: acc)

/-- Decimal rendering of a Nat (own fuel-based definition so that it
reduces definitionally). -/
def natToString (n : Nat) : String :=
  String.mk (natToStringAux (n + 1) n [])

def pad2 (n : Nat) : String :=
  if n < 10 then "0" ++ natToString n else natToString n

def pad4 (n : Nat) : String :=
  if n < 10 then "000" ++ natToString n
  else if n < 100 then "00" ++ natToString n
  else if n < 1000 then "0" ++ natToString n
  else natToString n

/-- Model of fecha_obj.strftime("%Y-%m-%d") (main.py line 164). -/
def formatDate (d : Date) : String :=
  pad4 d.year ++ "-" ++ pad2 d.month ++ "-" ++ pad2 d.day

/-! ## The loader's data model -/

/-- Value of a FECHA cell as produced by pd.read_excel: a native
Timestamp/datetime (whose .date() call discards the time of day), a
string, a plain number, or NaN for a missing cell. -/
inductive FechaCell where
  | native (d : Date) (timeOfDay : Nat)
  | str (s : String)
  | num (n : Int)
  | nan
deriving DecidableEq

/-- One DataFrame row: the FECHA cell, the AÑO cell (none is NaN), the
MES_NUMERO cell, and the person-named columns (a person absent from the
list models both a missing column — row.get default — and a NaN cell,
which the code both turns into the empty code). -/
structure Row where
  fecha : FechaCell
  anio : Option Int
  mesNumero : Option Int
  cells : List (String × String)
deriving DecidableEq

/-- The DataFrame: its rows plus which of the named columns exist. -/
structure Table where
  rows : List Row
  hasFecha : Bool
  hasAnio : Bool
  hasMesNumero : Bool
deriving DecidableEq

/-- Diagnostic printed at main.py line 158 before skipping a row. -/
def errorNoParse (s : String) : String :=
  "Error: No se pudo parsear la fecha '" ++ s ++ "'. Saltando."

/-- Diagnostic printed at main.py line 161 before skipping a row. -/
def errorTipoInesperado : String :=
  "Error: Tipo de dato de fecha inesperado. Saltando."

/-- main.py lines 127-131 (the first try of the string branch): split on
'/', int() the first two parts, build date(anio, mes, dia); none models
the ValueError/IndexError caught at line 132. -/
def diaMesParse (anio : Int) (s : String) : Option Date :=
  match splitSlash s with
  | p0 :: p1 :: _ =>
    match pyInt p0, pyInt p1 with
    | some dia, some mes => mkDate anio mes dia
    | _, _ => none
  | _ => none

def digits12 (s : String) : Option Nat :=
  match s.toList with
  | [c] => digitVal c
  | [c1, c2] =>
    match digitVal c1, digitVal c2 with
    | some v1, some v2 => some (10 * v1 + v2)
    | _, _ => none
  | _ => none

def digits4 (s : String) : Option Nat :=
  match s.toList with
  | [c1, c2, c3, c4] =>
    match digitVal c1, digitVal c2, digitVal c3, digitVal c4 with
    | some a, some b, some c, some d => some (1000 * a + 100 * b + 10 * c + d)
    | _, _, _, _ => none
  | _ => none

/-- Model of datetime.strptime(s, "%d/%m/%Y").date() (main.py line 135):
exactly three '/'-separated fields, day and month of one or two digits in
range (the strptime regex refuses "0" and "00"), a four-digit year, and
the whole must form a valid date; none is the ValueError. -/
def strptime_dmY (s : String) : Option Date :=
  match splitSlash s with
  | [ds, ms, ys] =>
    match digits12 ds, digits12 ms, digits4 ys with
    | some d, some m, some y =>
      if 1 ≤ d ∧ d ≤ 31 ∧ 1 ≤ m ∧ m ≤ 12 then mkDate (y : Int) (m : Int) (d : Int)
      else none
    | _, _, _ => none
  | _ => none

/-- main.py lines 122-162: the ordered date-parsing dispatch for one row.
A native Timestamp/datetime is used directly via .date(); a string goes
through the day/month split and then the strptime fallback; everything
else (plain numbers, NaN) reaches the final else branch and is skipped.
The day-of-month branch of lines 148-156 — isinstance(fecha_bruta,
(int, float)) — sits inside the isinstance(fecha_bruta, str) branch where
it is always False, so it is unreachable and has no counterpart here:
after both string parses fail, control always reaches the else of line
157 and the row is skipped with the line-158 diagnostic. -/
def parseFecha (anio : Int) (fb : FechaCell) : Except String Date :=
  match fb with
  | .native d _ => .ok d
  | .str s =>
    match diaMesParse anio s with
    | some d => .ok d
    | none =>
      match strptime_dmY s with
      | some d => .ok d
      | none => .error (errorNoParse s)
  | .num _ => .error errorTipoInesperado
  | .nan => .error errorTipoInesperado

/-! ## Building the per-day entries and the result mapping -/

/-- main.py lines 174-177: the per-person record with its two fields. -/
structure Entry where
  tipo_turno : String
  horario : String
deriving DecidableEq

/-- The result type of the loader:
mapping date-string to mapping person to Entry, as insertion-ordered
association lists (Python dicts keep insertion order). -/
abbrev TurnosData := List (String × List (String × Entry))

/-- main.py lines 167-177 for a single person: read the cell (missing
column or NaN cell gives the empty code), strip it, and resolve the
horario through the static table. -/
def entryFor (r : Row) (fechaObj : Date) (persona : String) : Entry :=
  let tipoTurno :=
    match r.cells.lookup persona with
    | none => ""
    | some v => pyStrip v
  { tipo_turno := tipoTurno, horario := horarioFor fechaObj tipoTurno }

/-- Assignment d[k] = v on a Python dict kept as an insertion-ordered
association list: replace in place if the key exists, else append. -/
def dictInsert {α : Type} (acc : List (String × α)) (k : String) (v : α) :
    List (String × α) :=
  if acc.any (fun kv => kv.1 == k) then
    acc.map (fun kv => if kv.1 == k then (k, v) else kv)
  else
    acc ++ [(k, v)]

/-- main.py lines 117-182, one iteration: int() the AÑO cell (a NaN year
raises ValueError, caught by the per-row except, so the row is skipped),
parse the FECHA cell (a failure skips the row), then store the roster's
entries under the formatted date string. -/
def processRow (acc : TurnosData) (r : Row) : TurnosData :=
  match r.anio with
  | none => acc
  | some anio =>
    match parseFecha anio r.fecha with
    | .error _ => acc
    | .ok fechaObj =>
      let fechaStr := formatDate fechaObj
      let turnosDelDia := NOMBRES_PERSONAS.map (fun persona => (persona, entryFor r fechaObj persona))
      dictInsert acc fechaStr turnosDelDia

/-- main.py lines 117-182: the row loop over the DataFrame. -/
def processRows (rows : List Row) : TurnosData :=
  rows.foldl processRow []

/-! ## The load call -/

/-- Outcome of pd.read_excel(archivo_path) on the backing file. -/
inductive ReadResult where
  | fileNotFound
  | readError (msg : String)
  | ok (df : Table)
deriving DecidableEq

/-- How a load call fails: an HTTPException raised with a status and
detail, or an exception (the KeyError of line 115) that nothing in the
function catches. -/
inductive LoadErr where
  | http (status : Nat) (detail : String)
  | keyError (key : String)
deriving DecidableEq

/-- main.py line 110: df['FECHA'].dropna().iloc[0] — the first FECHA cell
that is not NaN. -/
def firstFecha (rows : List Row) : Option FechaCell :=
  (rows.find? (fun r => !(r.fecha == FechaCell.nan))).map (fun r => r.fecha)

/-- main.py lines 110-114: the inferred default year — the year of the
first non-null FECHA value when it is a native date, else the current
year. -/
def anioDefecto (today : Date) (rows : List Row) : Int :=
  match firstFecha rows with
  | some (.native d _) => (d.year : Int)
  | _ => (today.year : Int)

/-- main.py line 115: df['AÑO'].fillna(anio_defecto) on the rows. -/
def fillAnio (rows : List Row) (v : Int) : List Row :=
  rows.map (fun r => { r with anio := some (r.anio.getD v) })

/-- main.py lines 89-185, cargar_turnos_desde_excel_full: the file-level
errors become HTTPExceptions (404 missing file, 500 read error, 500
missing FECHA column); when the AÑO column is absent or entirely null the
code reads df['AÑO'] at line 115 to fillna it, which raises an uncaught
KeyError when the column is absent; otherwise the row loop runs. -/
def cargar_turnos_desde_excel_full (today : Date) (src : ReadResult) :
    Except LoadErr TurnosData :=
  match src with
  | .fileNotFound => .error (.http 404 "Archivo Excel de turnos no encontrado.")
  | .readError e => .error (.http 500 ("Error al procesar el archivo Excel: " ++ e))
  | .ok df =>
    if df.hasFecha = false then
      .error (.http 500 "Columna 'FECHA' no encontrada en el Excel.")
    else if df.hasAnio = false ∨ df.rows.all (fun r => r.anio.isNone) = true then
      if df.hasAnio = false then .error (.keyError "AÑO")
      else .ok (processRows (fillAnio df.rows (anioDefecto today df.rows)))
    else .ok (processRows df.rows)

/-- The rows the row loop actually sees when the AÑO column exists: filled
with the default year when the column was entirely null, unchanged
otherwise. Proof-side restatement of the branch taken by the load call. -/
def effectiveRows (today : Date) (df : Table) : List Row :=
  if df.rows.all (fun r => r.anio.isNone) = true then
    fillAnio df.rows (anioDefecto today df.rows)
  else df.rows

lemma cargar_ok (today : Date) (df : Table) (hF : df.hasFecha = true)
    (hA : df.hasAnio = true) :
    cargar_turnos_desde_excel_full today (.ok df) =
      .ok (processRows (effectiveRows today df)) := by
  unfold cargar_turnos_desde_excel_full effectiveRows
  by_cases hall : df.rows.all (fun r => r.anio.isNone) = true <;>
    simp [hF, hA, hall]

/-- Unfolding equation of the load call on a readable table. -/
lemma cargar_ok_df (today : Date) (df : Table) :
    cargar_turnos_desde_excel_full today (.ok df) =
      (if df.hasFecha = false then
        .error (.http 500 "Columna 'FECHA' no encontrada en el Excel.")
      else if df.hasAnio = false ∨ df.rows.all (fun r => r.anio.isNone) = true then
        if df.hasAnio = false then .error (.keyError "AÑO")
        else .ok (processRows (fillAnio df.rows (anioDefecto today df.rows)))
      else .ok (processRows df.rows)) := rfl

/-- The keys of a load outcome (empty list on error). -/
def resKeys (e : Except LoadErr TurnosData) : List String :=
  match e with
  | .ok l => l.map Prod.fst
  | .error _ => []

/-! ## The HTTP boundary (main.py lines 197-206) -/

/-- Body and status of a /turnos response. -/
inductive Response where
  | ok (data : TurnosData)
  | err (status : Nat) (detail : String)
deriving DecidableEq

/-- main.py lines 197-206, get_all_turnos: with an empty cache the
schedule is reloaded; an HTTPException from the load keeps its status, an
uncaught exception becomes the framework's 500, an empty reload result is
a 404, and otherwise the full mapping is returned. -/
def get_all_turnos (today : Date) (turnos_completos : TurnosData)
    (src : ReadResult) : Response :=
  if turnos_completos.isEmpty then
    match cargar_turnos_desde_excel_full today src with
    | .error (.http st detail) => .err st detail
    | .error (.keyError _) => .err 500 "Internal Server Error"
    | .ok data =>
      if data.isEmpty then .err 404 "Turnos no cargados o archivo no encontrado"
      else .ok data
  else .ok turnos_completos

/-- The moment the process runs, standing in for datetime.now(). -/
def today0 : Date := ⟨2025, 10, 12⟩

/-! ## Concrete tables used by the claim theorems -/

/-- One row whose FECHA string is "18/12, Thu" and whose AÑO is 2024. -/
def tablaCommaThu : Table := ⟨[⟨.str "18/12, Thu", some 2024, none, []⟩], true, true, false⟩

/-- One row whose FECHA string is "18/12" and whose AÑO is 2024. -/
def tabla1812 : Table := ⟨[⟨.str "18/12", some 2024, none, []⟩], true, true, false⟩

/-- One row with FECHA the plain number 18, MES_NUMERO 12 present, AÑO 2024. -/
def tablaNumerica : Table := ⟨[⟨.num 18, some 2024, some 12, []⟩], true, true, true⟩

/-- One row whose FECHA string is "05/01/2024" and whose AÑO is 2023. -/
def tablaC4 : Table := ⟨[⟨.str "05/01/2024", some 2023, none, []⟩], true, true, false⟩

/-- One row with an unparsable FECHA string. -/
def rTBD : Row := ⟨.str "TBD", some 2024, none, []⟩

def tablaTBD : Table := ⟨[rTBD], true, true, false⟩

/-- FECHA column only — the AÑO column is absent. -/
def tablaSinAnio : Table := ⟨[⟨.native ⟨2024, 1, 5⟩ 0, none, none, []⟩], true, false, false⟩

/-- AÑO column present but entirely null; first FECHA value is native. -/
def tablaAnioVacioNativo : Table := ⟨[⟨.native ⟨2024, 3, 15⟩ 0, none, none, []⟩], true, true, false⟩

/-- AÑO column present but entirely null; first FECHA value is a string. -/
def tablaAnioVacioStr : Table := ⟨[⟨.str "18/12", none, none, []⟩], true, true, false⟩

/-- A readable file with FECHA and AÑO columns and no rows. -/
def tablaVacia : Table := ⟨[], true, true, false⟩

/-! ## Claims about the date-parsing rules -/

/-- C2 counterexample: for the raw date string "18/12, Thu" with row year
2024 the loader does not place the row under 2024-12-18 — int("12, Thu")
raises, the strptime fallback also fails, and the row is skipped, so the
load result is empty. -/
theorem comma_date_row_skipped :
    cargar_turnos_desde_excel_full today0 (.ok tablaCommaThu) = .ok [] := by
  rfl

/-- C2 (amended): the loader splits a string FECHA on '/' with no comma
handling; whenever the first two fields int()-parse and form a valid date
with the row's year, the row resolves to that date — so "18/12" with year
2024 appears under 2024-12-18, while "18/12, Thu" is skipped because its
month field "12, Thu" is not an integer. -/
theorem slash_date_uses_day_month :
    (∀ (anio : Int) (s p0 p1 : String) (rest : List String) (dia mes : Int) (fd : Date),
      splitSlash s = p0 :: p1 :: rest →
      pyInt p0 = some dia → pyInt p1 = some mes →
      mkDate anio mes dia = some fd →
      parseFecha anio (.str s) = .ok fd)
    ∧ resKeys (cargar_turnos_desde_excel_full today0 (.ok tabla1812)) = ["2024-12-18"] := by
  refine ⟨?_, by rfl⟩
  intro anio s p0 p1 rest dia mes fd hsplit hp0 hp1 hmk
  simp only [parseFecha, diaMesParse, hsplit, hp0, hp1, hmk]

theorem slash_date_uses_day_month_witness :
    parseFecha 2024 (.str "18/12") = .ok ⟨2024, 12, 18⟩ :=
  slash_date_uses_day_month.1 2024 "18/12" "18" "12" [] 18 12 ⟨2024, 12, 18⟩
    rfl rfl rfl rfl

/-- C3: a row whose FECHA cell is the plain number 18, even with
MES_NUMERO = 12 present and AÑO = 2024, is skipped by the type dispatch —
the isinstance(int, float) day-of-month branch is nested inside the
string branch where it can never run — so the load result stays empty
instead of containing 2024-12-18. -/
theorem numeric_date_row_skipped :
    cargar_turnos_desde_excel_full today0 (.ok tablaNumerica) = .ok []
    ∧ parseFecha 2024 (.num 18) = .error errorTipoInesperado :=
  ⟨rfl, rfl⟩

/-- C4 counterexample: for the raw date string "05/01/2024" with row year
2023 the resolved date is 2023-01-05 — the row's year column, not the
year contained in the string. -/
theorem full_date_string_ignores_embedded_year :
    resKeys (cargar_turnos_desde_excel_full today0 (.ok tablaC4)) = ["2023-01-05"] := by
  rfl

/-- C4 (amended): a day/month/year string with two slashes is parsed by
the generic day/month rule, taking day and month from the first two
fields and the year from the row's AÑO column; the strptime parse that
does use the year written in the string is reached only when the
day/month attempt fails, e.g. "29/02/2024" under row year 2023. -/
theorem full_date_string_row_year_rule :
    (∀ (anio : Int) (s p0 p1 p2 : String) (dia mes : Int) (fd : Date),
      splitSlash s = [p0, p1, p2] →
      pyInt p0 = some dia → pyInt p1 = some mes →
      mkDate anio mes dia = some fd →
      parseFecha anio (.str s) = .ok fd)
    ∧ (∀ (anio : Int) (s : String) (fd : Date),
      diaMesParse anio s = none → strptime_dmY s = some fd →
      parseFecha anio (.str s) = .ok fd) := by
  constructor
  · intro anio s p0 p1 p2 dia mes fd hsplit hp0 hp1 hmk
    simp only [parseFecha, diaMesParse, hsplit, hp0, hp1, hmk]
  · intro anio s fd h1 h2
    simp only [parseFecha, h1, h2]

theorem full_date_string_row_year_rule_witness :
    parseFecha 2024 (.str "05/01/2024") = .ok ⟨2024, 1, 5⟩
    ∧ parseFecha 2023 (.str "29/02/2024") = .ok ⟨2024, 2, 29⟩ :=
  ⟨full_date_string_row_year_rule.1 2024 "05/01/2024" "05" "01" "2024" 5 1
      ⟨2024, 1, 5⟩ rfl rfl rfl rfl,
   full_date_string_row_year_rule.2 2023 "29/02/2024" ⟨2024, 2, 29⟩ rfl rfl⟩

/-- C6: every row whose raw date no parsing rule resolves is skipped with
a printed diagnostic and never reaches the result: a string that defeats
both the day/month split and the strptime fallback errors with the
line-158 message, a plain number or a NaN cell errors with the line-161
message, any row whose date parse fails (whatever its year) leaves the
accumulated result untouched, and the load call on a readable table with
FECHA and AÑO columns still returns a result — exceptions never escape
the row loop. -/
theorem unparsable_row_skipped :
    (∀ (anio : Int) (s : String), diaMesParse anio s = none → strptime_dmY s = none →
      parseFecha anio (.str s) = .error (errorNoParse s))
    ∧ (∀ (anio n : Int), parseFecha anio (.num n) = .error errorTipoInesperado)
    ∧ (∀ anio : Int, parseFecha anio FechaCell.nan = .error errorTipoInesperado)
    ∧ (∀ (r : Row) (acc : TurnosData),
      (∀ a : Int, ∃ e, parseFecha a r.fecha = .error e) → processRow acc r = acc)
    ∧ (∀ (today : Date) (df : Table), df.hasFecha = true → df.hasAnio = true →
      ∃ res, cargar_turnos_desde_excel_full today (.ok df) = .ok res) := by
  refine ⟨?_, fun anio n => rfl, fun anio => rfl, ?_, ?_⟩
  · intro anio s h1 h2
    simp only [parseFecha, h1, h2]
  · intro r acc h
    unfold processRow
    cases ha : r.anio with
    | none => rfl
    | some a =>
      obtain ⟨e, he⟩ := h a
      simp only [he]
  · intro today df hF hA
    exact ⟨_, cargar_ok today df hF hA⟩

theorem unparsable_row_skipped_witness :
    parseFecha 2024 (.str "TBD") = .error (errorNoParse "TBD")
    ∧ parseFecha 2024 (.num 18) = .error errorTipoInesperado
    ∧ processRow [] rTBD = []
    ∧ ∃ res, cargar_turnos_desde_excel_full today0 (.ok tablaTBD) = .ok res :=
  ⟨unparsable_row_skipped.1 2024 "TBD" rfl rfl,
   unparsable_row_skipped.2.1 2024 18,
   unparsable_row_skipped.2.2.2.1 rTBD [] (fun _ => ⟨errorNoParse "TBD", rfl⟩),
   unparsable_row_skipped.2.2.2.2 today0 tablaTBD rfl rfl⟩

/-- C7: when the AÑO column is absent the load call fails — line 115
reads df['AÑO'] to fillna it and raises an uncaught KeyError — while the
claimed year inference happens only in the present-but-entirely-null
case: there the default year comes from the first non-null FECHA value
when it is native (2024 below), else from the current date (2025). -/
theorem missing_year_column_keyerror :
    cargar_turnos_desde_excel_full today0 (.ok tablaSinAnio) = .error (.keyError "AÑO")
    ∧ resKeys (cargar_turnos_desde_excel_full today0 (.ok tablaAnioVacioNativo)) = ["2024-03-15"]
    ∧ resKeys (cargar_turnos_desde_excel_full today0 (.ok tablaAnioVacioStr)) = ["2025-12-18"] :=
  ⟨rfl, rfl, rfl⟩

/-- C8: with an empty cache, GET /turnos answers 404 for a missing
backing file, 500 for a read error, 500 for a missing FECHA column, 404
when the reloaded schedule is still empty, and otherwise the full
resolved mapping. -/
theorem get_turnos_http_statuses :
    ∀ (today : Date),
      get_all_turnos today [] .fileNotFound
        = .err 404 "Archivo Excel de turnos no encontrado."
      ∧ (∀ msg, get_all_turnos today [] (.readError msg)
        = .err 500 ("Error al procesar el archivo Excel: " ++ msg))
      ∧ (∀ df : Table, df.hasFecha = false → get_all_turnos today [] (.ok df)
        = .err 500 "Columna 'FECHA' no encontrada en el Excel.")
      ∧ (∀ src : ReadResult, cargar_turnos_desde_excel_full today src = .ok [] →
        get_all_turnos today [] src = .err 404 "Turnos no cargados o archivo no encontrado")
      ∧ (∀ (src : ReadResult) (res : TurnosData), res ≠ [] →
        cargar_turnos_desde_excel_full today src = .ok res →
        get_all_turnos today [] src = .ok res) := by
  intro today
  refine ⟨rfl, fun msg => rfl, ?_, ?_, ?_⟩
  · intro df h
    unfold get_all_turnos cargar_turnos_desde_excel_full
    simp [h]
  · intro src hc
    unfold get_all_turnos
    rw [hc]
    rfl
  · intro src res hne hc
    unfold get_all_turnos
    rw [hc]
    cases res with
    | nil => exact absurd rfl hne
    | cons a l => rfl

theorem get_turnos_http_statuses_witness :
    get_all_turnos today0 [] (.ok tablaVacia)
      = .err 404 "Turnos no cargados o archivo no encontrado" :=
  (get_turnos_http_statuses today0).2.2.2.1 (.ok tablaVacia) rfl

/-! ## Dict-insertion lemmas for the row loop -/

lemma mem_dictInsert {α : Type} (acc : List (String × α)) (k : String) (v : α)
    (x : String × α) (hx : x ∈ dictInsert acc k v) : x ∈ acc ∨ x = (k, v) := by
  unfold dictInsert at hx
  by_cases h : acc.any (fun kv => kv.1 == k)
  · rw [if_pos h] at hx
    rcases List.mem_map.1 hx with ⟨y, hy, hxy⟩
    by_cases hb : y.1 == k
    · right
      rw [← hxy, if_pos hb]
    · left
      rw [← hxy, if_neg hb]
      exact hy
  · rw [if_neg h] at hx
    rcases List.mem_append.1 hx with h1 | h2
    · exact Or.inl h1
    · exact Or.inr (List.mem_singleton.1 h2)

lemma keys_dictInsert_self {α : Type} (acc : List (String × α)) (k : String) (v : α) :
    k ∈ (dictInsert acc k v).map Prod.fst := by
  unfold dictInsert
  by_cases h : acc.any (fun kv => kv.1 == k)
  · rw [if_pos h]
    rcases List.any_eq_true.1 h with ⟨y, hy, hb⟩
    refine List.mem_map.2 ⟨(k, v), ?_, rfl⟩
    refine List.mem_map.2 ⟨y, hy, ?_⟩
    rw [if_pos hb]
  · rw [if_neg h]
    simp

lemma keys_dictInsert_mono {α : Type} (acc : List (String × α)) (k k' : String) (v : α)
    (h : k' ∈ acc.map Prod.fst) : k' ∈ (dictInsert acc k v).map Prod.fst := by
  unfold dictInsert
  by_cases hany : acc.any (fun kv => kv.1 == k)
  · rw [if_pos hany]
    rcases List.mem_map.1 h with ⟨y, hy, hk⟩
    refine List.mem_map.2 ⟨if y.1 == k then (k, v) else y, List.mem_map.2 ⟨y, hy, rfl⟩, ?_⟩
    by_cases hb : y.1 == k
    · rw [if_pos hb, ← hk]
      exact (eq_of_beq hb).symm
    · rw [if_neg hb]
      exact hk
  · rw [if_neg hany, List.map_append]
    exact List.mem_append_left _ h

lemma keys_processRow_mono (acc : TurnosData) (r : Row) (k' : String)
    (h : k' ∈ acc.map Prod.fst) : k' ∈ (processRow acc r).map Prod.fst := by
  unfold processRow
  cases ha : r.anio with
  | none => exact h
  | some a =>
    cases hp : parseFecha a r.fecha with
    | error e => simp only [hp]; exact h
    | ok d => simp only [hp]; exact keys_dictInsert_mono _ _ _ _ h

lemma keys_foldl_mono (rows : List Row) : ∀ (acc : TurnosData) (k' : String),
    k' ∈ acc.map Prod.fst → k' ∈ (rows.foldl processRow acc).map Prod.fst := by
  induction rows with
  | nil => intro acc k' h; exact h
  | cons r rest ih => intro acc k' h; exact ih _ _ (keys_processRow_mono _ _ _ h)

lemma keys_foldl_of_row (rows : List Row) : ∀ (acc : TurnosData) (r : Row) (a : Int) (d : Date),
    r ∈ rows → r.anio = some a → parseFecha a r.fecha = .ok d →
    formatDate d ∈ (rows.foldl processRow acc).map Prod.fst := by
  induction rows with
  | nil => intro acc r a d hr _ _; exact absurd hr (List.not_mem_nil r)
  | cons r0 rest ih =>
    intro acc r a d hr ha hp
    rcases List.mem_cons.1 hr with heq | hmem
    · subst heq
      refine keys_foldl_mono rest (processRow acc r) _ ?_
      unfold processRow
      simp only [ha, hp]
      exact keys_dictInsert_self _ _ _
    · exact ih _ _ _ _ hmem ha hp

lemma map_fst_map_pair {β : Type} (l : List String) (f : String → β) :
    (l.map (fun p => (p, f p))).map Prod.fst = l := by
  induction l with
  | nil => rfl
  | cons a t ih => simp [ih]

/-- Every inner mapping built by the row loop keys exactly the roster. -/
lemma processRows_roster : ∀ (rows : List Row) (acc : TurnosData),
    (∀ x ∈ acc, x.2.map Prod.fst = NOMBRES_PERSONAS) →
    ∀ x ∈ rows.foldl processRow acc, x.2.map Prod.fst = NOMBRES_PERSONAS := by
  intro rows
  induction rows with
  | nil => intro acc h; exact h
  | cons r rest ih =>
    intro acc h
    apply ih
    intro x hx
    unfold processRow at hx
    cases ha : r.anio with
    | none =>
      simp only [ha] at hx
      exact h x hx
    | some a =>
      simp only [ha] at hx
      cases hp : parseFecha a r.fecha with
      | error e =>
        simp only [hp] at hx
        exact h x hx
      | ok d =>
        simp only [hp] at hx
        rcases mem_dictInsert _ _ _ _ hx with hmem | heq
        · exact h x hmem
        · rw [heq]
          exact map_fst_map_pair _ _

/-! ## Claims about the rows the loader keeps -/

/-- Two rows with native dates; the second one's AÑO cell is NaN. -/
def tablaAnioNaN : Table :=
  ⟨[⟨.native ⟨2024, 1, 5⟩ 0, some 2024, none, []⟩,
    ⟨.native ⟨2024, 1, 6⟩ 0, none, none, []⟩], true, true, false⟩

/-- C5 counterexample: the second row's raw date is the native value
2024-01-06, yet the row is missing from the load result — its NaN AÑO
cell makes int(row['AÑO']) raise before the date branch runs, and the
per-row except skips the row. -/
theorem native_date_row_skipped_on_nan_year :
    resKeys (cargar_turnos_desde_excel_full today0 (.ok tablaAnioNaN)) = ["2024-01-05"] := by
  rfl

/-- C5 (amended): a row whose raw date is a native Timestamp/datetime and
whose AÑO cell (after the all-null fill) coerces to an integer resolves
to exactly the native value's date part — the time of day t is discarded —
and that date string is a key of the load result. -/
theorem native_date_used_directly :
    ∀ (df : Table) (today : Date) (r : Row) (a : Int) (d : Date) (t : Nat),
      df.hasFecha = true → df.hasAnio = true →
      r ∈ effectiveRows today df → r.anio = some a → r.fecha = .native d t →
      parseFecha a r.fecha = .ok d
      ∧ ∃ res, cargar_turnos_desde_excel_full today (.ok df) = .ok res
          ∧ formatDate d ∈ res.map Prod.fst := by
  intro df today r a d t hF hA hr ha hf
  have hp : parseFecha a r.fecha = .ok d := by rw [hf]; rfl
  exact ⟨hp, processRows (effectiveRows today df), cargar_ok today df hF hA,
    keys_foldl_of_row _ _ _ _ _ hr ha hp⟩

/-- A single row with the native date 2024-01-05 at 01:00 and AÑO 2024. -/
def rNativa : Row := ⟨.native ⟨2024, 1, 5⟩ 3600, some 2024, none, []⟩

def tablaNativa : Table := ⟨[rNativa], true, true, false⟩

theorem native_date_used_directly_witness :
    parseFecha 2024 rNativa.fecha = .ok ⟨2024, 1, 5⟩
    ∧ ∃ res, cargar_turnos_desde_excel_full today0 (.ok tablaNativa) = .ok res
        ∧ formatDate ⟨2024, 1, 5⟩ ∈ res.map Prod.fst :=
  native_date_used_directly tablaNativa today0 rNativa 2024 ⟨2024, 1, 5⟩ 3600
    rfl rfl (by decide) rfl rfl

/-- C10: in every successful load result each date maps to an inner
mapping whose keys are exactly the static roster NOMBRES_PERSONAS, in
order, and a person without a cell (absent column or NaN) gets the empty
shift code. -/
theorem inner_mapping_exact_roster :
    (∀ (today : Date) (df : Table) (res : TurnosData) (k : String)
        (m : List (String × Entry)),
      cargar_turnos_desde_excel_full today (.ok df) = .ok res →
      (k, m) ∈ res → m.map Prod.fst = NOMBRES_PERSONAS)
    ∧ (∀ (r : Row) (fd : Date) (p : String),
      r.cells.lookup p = none → (entryFor r fd p).tipo_turno = "") := by
  constructor
  · intro today df res k m hc hm
    have hres : ∀ x ∈ res, x.2.map Prod.fst = NOMBRES_PERSONAS := by
      rw [cargar_ok_df] at hc
      by_cases hF : df.hasFecha = false
      · rw [if_pos hF] at hc
        simp at hc
      · rw [if_neg hF] at hc
        by_cases hAor : df.hasAnio = false ∨ df.rows.all (fun r => r.anio.isNone) = true
        · rw [if_pos hAor] at hc
          by_cases hA : df.hasAnio = false
          · rw [if_pos hA] at hc
            simp at hc
          · rw [if_neg hA] at hc
            obtain rfl := Except.ok.inj hc
            exact processRows_roster _ [] (fun x hx => absurd hx (List.not_mem_nil x))
        · rw [if_neg hAor] at hc
          obtain rfl := Except.ok.inj hc
          exact processRows_roster _ [] (fun x hx => absurd hx (List.not_mem_nil x))
    exact hres (k, m) hm
  · intro r fd p h
    simp [entryFor, h]

/-- The inner mapping of the roster witness: every person off with the
day-off string for weekday 2024-01-05. -/
def m10 : List (String × Entry) :=
  NOMBRES_PERSONAS.map (fun p => (p, ⟨"", "Día Libre / No Definido"⟩))

def res10 : TurnosData := [("2024-01-05", m10)]

def tablaRoster : Table := ⟨[⟨.native ⟨2024, 1, 5⟩ 0, some 2024, none, []⟩], true, true, false⟩

theorem inner_mapping_exact_roster_witness :
    m10.map Prod.fst = NOMBRES_PERSONAS
    ∧ (entryFor ⟨.native ⟨2024, 1, 5⟩ 0, some 2024, none, []⟩ ⟨2024, 1, 5⟩ "M. PAEZ").tipo_turno = "" :=
  ⟨inner_mapping_exact_roster.1 today0 tablaRoster res10 "2024-01-05" m10 rfl
      (List.mem_singleton.2 rfl),
   inner_mapping_exact_roster.2 ⟨.native ⟨2024, 1, 5⟩ 0, some 2024, none, []⟩ ⟨2024, 1, 5⟩ "M. PAEZ" rfl⟩

end TurnoBackend
